import Mathlib

/-!
Verification of the krouter reconciliation engine.

The repository ships two revisions of `main.go`:
* `src/main.go` (namespace `Krouter` below): tunnel phase deletes
  unconditionally; static and ECMP phases issue their `ip route add`
  unconditionally.
* the listing embedded in `src/README.md` (namespace `KrouterV2` below):
  identical control flow except that the tunnel delete is guarded by
  `tunnelExists`, the static-route add by `routeExists`, and the ECMP add by
  `ecmpRouteExists`.

External command execution (`execCommand`) is modelled by an oracle
`Env : Cmd → String × Bool` giving, for each issued command, its captured
standard output and whether it succeeded (`true` = the Go error was `nil`).
Every function returns the sequence (trace) of commands it issued, so that
ordering and phase claims are statements about traces.
-/

/-- One external command invocation: the binary and its argument vector
(`execCommand(command, args...)` in the source). -/
structure Cmd where
  command : String
  args : List String
deriving DecidableEq, Repr

/-- The environment: for each command, the captured stdout and the success
bit (`err == nil`). -/
def Env : Type := Cmd → String × Bool

/-- Go `strings.HasPrefix` on character lists: does `s` start with `pre`? -/
def goStartsWith : List Char → List Char → Bool
  | _, [] => true
  | [], _ :: _ => false
  | a :: s, b :: t => a = b && goStartsWith s t

/-- Go `strings.Contains` on character lists: does `sub` occur as a
contiguous substring of `s`? -/
def goContains : List Char → List Char → Bool
  | [], sub => goStartsWith [] sub
  | a :: rest, sub => goStartsWith (a :: rest) sub || goContains rest sub

/-- Strip one trailing carriage return, as `bufio.ScanLines` does to each
line. -/
def dropCR (l : List Char) : List Char :=
  if l.getLast? = some '\r' then l.dropLast else l

/-- Split into lines the way `bufio.Scanner` with `ScanLines` does: tokens
are separated by a newline, a trailing newline yields no extra empty token,
and empty input yields no token at all. -/
def goLines (s : List Char) : List (List Char) :=
  s.foldr
    (fun c acc =>
      if c = '\n' then [] :: acc
      else
        match acc with
        | [] => [[c]]
        | l :: ls => (c :: l) :: ls)
    []

/-- `gre_tunnels` entry of the YAML config. -/
structure Tunnel where
  name : String
  localIP : String
  remoteIP : String
  tunnelIP : String
  subnetMask : String
deriving DecidableEq, Repr

/-- `static_routes` entry of the YAML config. -/
structure StaticRoute where
  destination : String
  gateway : String
deriving DecidableEq, Repr

/-- One `nexthops` entry of an ECMP route. -/
structure Nexthop where
  dev : String
  via : String
  weight : Int
deriving DecidableEq, Repr

/-- `ecmp_routes` entry of the YAML config. -/
structure ECMPRoute where
  route : String
  table : String
  nexthops : List Nexthop
deriving DecidableEq, Repr

/-- `program_settings` section (logging configuration; not consulted by the
reconciliation logic). -/
structure ProgramSettings where
  logFilePath : String
  infoEnabled : Bool
  errorEnabled : Bool
  debugEnabled : Bool
deriving DecidableEq, Repr

/-- The parsed configuration (`type Config struct` in the source). -/
structure Config where
  programSettings : ProgramSettings
  greTunnels : List Tunnel
  staticRoutes : List StaticRoute
  ecmpRoutes : List ECMPRoute
deriving DecidableEq, Repr

namespace MD5

/-- 32-bit modular addition. -/
def add32 (a b : Nat) : Nat := (a + b) % 4294967296

/-- 32-bit bitwise complement. -/
def not32 (a : Nat) : Nat := Nat.xor 4294967295 a

/-- 32-bit left rotation. -/
def rotl32 (x s : Nat) : Nat :=
  ((x <<< s) % 4294967296) ||| (x >>> (32 - s))

/-- The 64 MD5 sine-derived round constants. -/
def K : List Nat :=
  [3614090360, 3905402710, 606105819, 3250441966, 4118548399, 1200080426,
   2821735955, 4249261313, 1770035416, 2336552879, 4294925233, 2304563134,
   1804603682, 4254626195, 2792965006, 1236535329, 4129170786, 3225465664,
   643717713, 3921069994, 3593408605, 38016083, 3634488961, 3889429448,
   568446438, 3275163606, 4107603335, 1163531501, 2850285829, 4243563512,
   1735328473, 2368359562, 4294588738, 2272392833, 1839030562, 4259657740,
   2763975236, 1272893353, 4139469664, 3200236656, 681279174, 3936430074,
   3572445317, 76029189, 3654602809, 3873151461, 530742520, 3299628645,
   4096336452, 1126891415, 2878612391, 4237533241, 1700485571, 2399980690,
   4293915773, 2240044497, 1873313359, 4264355552, 2734768916, 1309151649,
   4149444226, 3174756917, 718787259, 3951481745]

/-- The per-round left-rotation amounts. -/
def S : List Nat :=
  [7, 12, 17, 22, 7, 12, 17, 22, 7, 12, 17, 22, 7, 12, 17, 22,
   5, 9, 14, 20, 5, 9, 14, 20, 5, 9, 14, 20, 5, 9, 14, 20,
   4, 11, 16, 23, 4, 11, 16, 23, 4, 11, 16, 23, 4, 11, 16, 23,
   6, 10, 15, 21, 6, 10, 15, 21, 6, 10, 15, 21, 6, 10, 15, 21]

/-- Round function of round `i`. -/
def roundF (i b c d : Nat) : Nat :=
  if i < 16 then (b &&& c) ||| (not32 b &&& d)
  else if i < 32 then (d &&& b) ||| (not32 d &&& c)
  else if i < 48 then Nat.xor (Nat.xor b c) d
  else Nat.xor c (b ||| not32 d)

/-- Message-word index used in round `i`. -/
def roundG (i : Nat) : Nat :=
  if i < 16 then i
  else if i < 32 then (5 * i + 1) % 16
  else if i < 48 then (3 * i + 5) % 16
  else (7 * i) % 16

/-- One MD5 round on the state quadruple. -/
def step (M : List Nat) (st : Nat × Nat × Nat × Nat) (i : Nat) :
    Nat × Nat × Nat × Nat :=
  let (a, b, c, d) := st
  let fv := add32 (add32 (add32 a (roundF i b c d)) (K.getD i 0))
    (M.getD (roundG i) 0)
  (d, add32 b (rotl32 fv (S.getD i 0)), b, c)

/-- Process one 16-word block. -/
def processBlock (st : Nat × Nat × Nat × Nat) (M : List Nat) :
    Nat × Nat × Nat × Nat :=
  let (a, b, c, d) := (List.range 64).foldl (step M) st
  (add32 st.1 a, add32 st.2.1 b, add32 st.2.2.1 c, add32 st.2.2.2 d)

/-- MD5 padding: append `0x80`, zero bytes up to 56 mod 64, then the bit
length as eight little-endian bytes. -/
def padMsg (msg : List Nat) : List Nat :=
  let len := msg.length
  let zeros := (119 - len % 64) % 64
  msg ++ 128 :: List.replicate zeros 0 ++
    (List.range 8).map (fun i => (8 * len) >>> (8 * i) % 256)

/-- Split into 64-byte chunks (fuel-indexed for structural recursion). -/
def chunksAux : Nat → List Nat → List (List Nat)
  | 0, _ => []
  | _, [] => []
  | fuel + 1, x :: xs => (x :: xs.take 63) :: chunksAux fuel (xs.drop 63)

/-- Split a byte list into 64-byte blocks. -/
def chunks64 (l : List Nat) : List (List Nat) := chunksAux l.length l

/-- Decode a 64-byte block into 16 little-endian 32-bit words. -/
def blockWords (b : List Nat) : List Nat :=
  (List.range 16).map (fun j =>
    b.getD (4 * j) 0 + 256 * b.getD (4 * j + 1) 0 +
      65536 * b.getD (4 * j + 2) 0 + 16777216 * b.getD (4 * j + 3) 0)

/-- The MD5 digest of a byte list, as 16 bytes. -/
def md5Bytes (msg : List Nat) : List Nat :=
  let st := (chunks64 (padMsg msg)).foldl
    (fun st blk => processBlock st (blockWords blk))
    (1732584193, 4023233417, 2562383102, 271733878)
  [st.1, st.2.1, st.2.2.1, st.2.2.2].flatMap
    (fun w => [w % 256, w >>> 8 % 256, w >>> 16 % 256, w >>> 24 % 256])

/-- Lower-case hex digit. -/
def hexDigit (n : Nat) : Char :=
  if n < 10 then Char.ofNat (48 + n) else Char.ofNat (87 + n)

/-- The MD5 digest as the 32-character lower-case hex string produced by
`hex.EncodeToString` in `getFileMD5`. -/
def md5Hex (msg : List Nat) : String :=
  String.mk ((md5Bytes msg).flatMap (fun b => [hexDigit (b / 16), hexDigit (b % 16)]))

end MD5

/-- `ip tunnel del <name>`. -/
def tunnelDelCmd (t : Tunnel) : Cmd :=
  ⟨"ip", ["tunnel", "del", t.name]⟩

/-- `ip tunnel add <name> mode gre local <localIP> remote <remoteIP>`. -/
def tunnelAddCmd (t : Tunnel) : Cmd :=
  ⟨"ip", ["tunnel", "add", t.name, "mode", "gre", "local", t.localIP,
    "remote", t.remoteIP]⟩

/-- `ip addr add <tunnelIP>/<subnetMask> dev <name>`. -/
def addrAddCmd (t : Tunnel) : Cmd :=
  ⟨"ip", ["addr", "add", t.tunnelIP ++ "/" ++ t.subnetMask, "dev", t.name]⟩

/-- `ip link set <name> up`. -/
def linkUpCmd (t : Tunnel) : Cmd :=
  ⟨"ip", ["link", "set", t.name, "up"]⟩

/-- `ip route add <destination> via <gateway>`. -/
def staticAddCmd (r : StaticRoute) : Cmd :=
  ⟨"ip", ["route", "add", r.destination, "via", r.gateway]⟩

/-- `ip tunnel show` (probe used by `tunnelExists`). -/
def tunnelShowCmd : Cmd := ⟨"ip", ["tunnel", "show"]⟩

/-- `ip route show` (probe used by `routeExists`). -/
def routeShowCmd : Cmd := ⟨"ip", ["route", "show"]⟩

/-- `ip route show table <table>` (probe used by `ecmpRouteExists`). -/
def routeShowTableCmd (table : String) : Cmd :=
  ⟨"ip", ["route", "show", "table", table]⟩

/-- The `nexthopArgs` accumulator loop of `setupECMPRoutes`: starting from
the empty slice, append `nexthop dev <dev> via <via> weight <weight>` for
each nexthop in order. -/
def nexthopArgs (nhs : List Nexthop) : List String :=
  nhs.foldl
    (fun acc nh =>
      acc ++ ["nexthop", "dev", nh.dev, "via", nh.via, "weight",
        toString nh.weight])
    []

/-- The full argument vector of the ECMP `ip route add` invocation. -/
def ecmpArgs (e : ECMPRoute) : List String :=
  ["route", "add", e.route, "proto", "static", "scope", "global", "table",
    e.table] ++ nexthopArgs e.nexthops

/-- The single multi-nexthop ECMP route command. -/
def ecmpAddCmd (e : ECMPRoute) : Cmd := ⟨"ip", ecmpArgs e⟩

namespace Krouter

/-!
Embedding of `src/main.go`. Each `setup*` function returns the list of
commands it issued and `true` when it returned `nil` (no error).
-/

/-- `setupGRETunnels` of `src/main.go`: for each tunnel, delete (failure
only logged), then add / assign address / bring up, returning the error —
and thereby stopping — as soon as one of those three fails. -/
def setupGRETunnels (env : Env) : List Tunnel → List Cmd × Bool
  | [] => ([], true)
  | t :: rest =>
    if (env (tunnelAddCmd t)).2 = false then
      ([tunnelDelCmd t, tunnelAddCmd t], false)
    else if (env (addrAddCmd t)).2 = false then
      ([tunnelDelCmd t, tunnelAddCmd t, addrAddCmd t], false)
    else if (env (linkUpCmd t)).2 = false then
      ([tunnelDelCmd t, tunnelAddCmd t, addrAddCmd t, linkUpCmd t], false)
    else
      let (tr, ok) := setupGRETunnels env rest
      (tunnelDelCmd t :: tunnelAddCmd t :: addrAddCmd t :: linkUpCmd t :: tr,
        ok)

/-- `setupStaticRoutes` of `src/main.go`: issue `ip route add` for every
spec; a failure is only logged; always returns `nil`. -/
def setupStaticRoutes (env : Env) : List StaticRoute → List Cmd × Bool
  | [] => ([], true)
  | r :: rest =>
    let (tr, ok) := setupStaticRoutes env rest
    (staticAddCmd r :: tr, ok)

/-- `setupECMPRoutes` of `src/main.go`: issue the multi-nexthop
`ip route add` for every spec; a failure is only logged; always returns
`nil`. -/
def setupECMPRoutes (env : Env) : List ECMPRoute → List Cmd × Bool
  | [] => ([], true)
  | e :: rest =>
    let (tr, ok) := setupECMPRoutes env rest
    (ecmpAddCmd e :: tr, ok)

/-- How a startup pass (`main`) ends. -/
inductive Outcome
  | ok
  | fatalLoad
  | fatalTunnel
  | fatalStatic
  | fatalEcmp
  | fatalHash
deriving DecidableEq, Repr

/-- The startup path of `main`: load the config (`Fatalf` on error), run
the three phases with `Fatalf` on a phase error, then compute the initial
file hash (`Fatalf` on error) and store it. Returns the outcome, the trace
of issued commands, and the stored `currentHash` when the pass completed. -/
def startupPass (loadRes : Option Config) (env : Env)
    (fileBytes : Option (List Nat)) : Outcome × List Cmd × Option String :=
  match loadRes with
  | none => (.fatalLoad, [], none)
  | some cfg =>
    let (t1, ok1) := setupGRETunnels env cfg.greTunnels
    if ok1 = false then (.fatalTunnel, t1, none)
    else
      let (t2, ok2) := setupStaticRoutes env cfg.staticRoutes
      if ok2 = false then (.fatalStatic, t1 ++ t2, none)
      else
        let (t3, ok3) := setupECMPRoutes env cfg.ecmpRoutes
        if ok3 = false then (.fatalEcmp, t1 ++ t2 ++ t3, none)
        else
          match fileBytes with
          | none => (.fatalHash, t1 ++ t2 ++ t3, none)
          | some bs => (.ok, t1 ++ t2 ++ t3, some (MD5.md5Hex bs))

/-- The process-wide state read and written by the watch loop:
`currentHash` and `config`. -/
structure WatchState where
  currentHash : String
  config : Config
deriving DecidableEq, Repr

/-- Result of handling one filesystem event in `watchConfigFile`. -/
structure PassResult where
  state : WatchState
  trace : List Cmd
  loadAttempted : Bool
deriving DecidableEq, Repr

/-- One watch-triggered reconciliation: the three phases in order; each
phase error is logged and the next phase still runs. -/
def reconcile (env : Env) (cfg : Config) : List Cmd :=
  (setupGRETunnels env cfg.greTunnels).1 ++
    (setupStaticRoutes env cfg.staticRoutes).1 ++
    (setupECMPRoutes env cfg.ecmpRoutes).1

/-- One iteration of the event loop of `watchConfigFile`, on one event.
`isWrite` is whether `event.Op & fsnotify.Write == fsnotify.Write`;
`fileBytes` is the read result inside `getFileMD5` (`none` = read error);
`loadRes` is the result of `loadConfig` (`none` = load error, config left
as it was). Mirrors the source: `currentHash = newHash` is executed before
`loadConfig` is attempted. -/
def watchPass (st : WatchState) (env : Env) (isWrite : Bool)
    (fileBytes : Option (List Nat)) (loadRes : Option Config) : PassResult :=
  if isWrite = false then ⟨st, [], false⟩
  else
    match fileBytes with
    | none => ⟨st, [], false⟩
    | some bs =>
      let newHash := MD5.md5Hex bs
      if newHash ≠ st.currentHash then
        match loadRes with
        | none => ⟨⟨newHash, st.config⟩, [], true⟩
        | some cfg => ⟨⟨newHash, cfg⟩, reconcile env cfg, true⟩
      else ⟨st, [], false⟩

end Krouter

namespace KrouterV2

/-!
Embedding of the `main.go` revision embedded in `src/README.md`: the same
program with existence probes (`tunnelExists`, `routeExists`,
`ecmpRouteExists`) guarding the tunnel delete and the two route adds.
Each probe takes the `(output, success)` pair returned by `execCommand`
for its query; mirroring `output, _ := execCommand(...)` in the source, the
success component is never consulted.
-/

/-- `tunnelExists`: `strings.Contains` of the tunnel name against the
captured `ip tunnel show` output; the command's error is discarded. -/
def tunnelExists (res : String × Bool) (name : String) : Bool :=
  goContains res.1.data name.data

/-- `routeExists`: both the destination and the gateway must occur as
substrings of the captured `ip route show` output; the command's error is
discarded. -/
def routeExists (res : String × Bool) (destination gateway : String) : Bool :=
  goContains res.1.data destination.data && goContains res.1.data gateway.data

/-- `ecmpRouteExists`: scan the captured `ip route show table <table>`
output line by line for the route selector; the command's error is
discarded. -/
def ecmpRouteExists (res : String × Bool) (route : String) : Bool :=
  ((goLines res.1.data).map dropCR).any (fun l => goContains l route.data)

/-- `setupGRETunnels` of the README revision: probe with `ip tunnel show`,
delete only when the name occurs in the output, then add / assign address /
bring up, returning the error — and stopping — as soon as one of those
three fails. -/
def setupGRETunnels (env : Env) : List Tunnel → List Cmd × Bool
  | [] => ([], true)
  | t :: rest =>
    let head :=
      tunnelShowCmd ::
        (if tunnelExists (env tunnelShowCmd) t.name then [tunnelDelCmd t]
         else [])
    if (env (tunnelAddCmd t)).2 = false then
      (head ++ [tunnelAddCmd t], false)
    else if (env (addrAddCmd t)).2 = false then
      (head ++ [tunnelAddCmd t, addrAddCmd t], false)
    else if (env (linkUpCmd t)).2 = false then
      (head ++ [tunnelAddCmd t, addrAddCmd t, linkUpCmd t], false)
    else
      let (tr, ok) := setupGRETunnels env rest
      (head ++ tunnelAddCmd t :: addrAddCmd t :: linkUpCmd t :: tr, ok)

/-- `setupStaticRoutes` of the README revision: probe with
`ip route show`; add only when `routeExists` is false; a failed add is only
logged; always returns `nil`. -/
def setupStaticRoutes (env : Env) : List StaticRoute → List Cmd × Bool
  | [] => ([], true)
  | r :: rest =>
    let (tr, ok) := setupStaticRoutes env rest
    if routeExists (env routeShowCmd) r.destination r.gateway then
      (routeShowCmd :: tr, ok)
    else
      (routeShowCmd :: staticAddCmd r :: tr, ok)

/-- `setupECMPRoutes` of the README revision: probe with
`ip route show table <table>`; add only when `ecmpRouteExists` is false; a
failed add is only logged; always returns `nil`. -/
def setupECMPRoutes (env : Env) : List ECMPRoute → List Cmd × Bool
  | [] => ([], true)
  | e :: rest =>
    let (tr, ok) := setupECMPRoutes env rest
    if ecmpRouteExists (env (routeShowTableCmd e.table)) e.route then
      (routeShowTableCmd e.table :: tr, ok)
    else
      (routeShowTableCmd e.table :: ecmpAddCmd e :: tr, ok)

end KrouterV2

/-- Syntactic class of tunnel-phase commands: first argument `tunnel`,
`addr` or `link`. -/
def isTunnelOp (c : Cmd) : Bool :=
  c.args.getD 0 "" == "tunnel" || c.args.getD 0 "" == "addr" ||
    c.args.getD 0 "" == "link"

/-- Syntactic class of static-route commands:
`route add <destination> via <gateway>`. -/
def isStaticOp (c : Cmd) : Bool :=
  c.args.length == 5 && c.args.getD 0 "" == "route" &&
    c.args.getD 1 "" == "add" && c.args.getD 3 "" == "via"

/-- Syntactic class of ECMP-route commands:
`route add <route> proto static scope global table <table> ...`. -/
def isEcmpOp (c : Cmd) : Bool :=
  c.args.getD 0 "" == "route" && c.args.getD 1 "" == "add" &&
    c.args.getD 3 "" == "proto" && c.args.getD 4 "" == "static" &&
    c.args.getD 5 "" == "scope" && c.args.getD 6 "" == "global" &&
    c.args.getD 7 "" == "table"

/-- Strict phasing of a trace: every tunnel-phase command precedes every
static-route command, and every static-route command precedes every
ECMP-route command. -/
def orderedTrace (tr : List Cmd) : Prop :=
  (∀ i j (hi : i < tr.length) (hj : j < tr.length),
      isTunnelOp (tr.get ⟨i, hi⟩) = true → isStaticOp (tr.get ⟨j, hj⟩) = true →
      i < j) ∧
  (∀ i j (hi : i < tr.length) (hj : j < tr.length),
      isStaticOp (tr.get ⟨i, hi⟩) = true → isEcmpOp (tr.get ⟨j, hj⟩) = true →
      i < j)

/-- All of a tunnel's add, address and link-up commands succeed under
`env` (nothing is assumed about the delete). -/
def tunnelOk (env : Env) (t : Tunnel) : Prop :=
  (env (tunnelAddCmd t)).2 = true ∧ (env (addrAddCmd t)).2 = true ∧
    (env (linkUpCmd t)).2 = true

instance (env : Env) (t : Tunnel) : Decidable (tunnelOk env t) :=
  inferInstanceAs (Decidable ((env (tunnelAddCmd t)).2 = true ∧
    (env (addrAddCmd t)).2 = true ∧ (env (linkUpCmd t)).2 = true))

/-- The four commands `src/main.go` issues for one tunnel. -/
def tunnelChunk (t : Tunnel) : List Cmd :=
  [tunnelDelCmd t, tunnelAddCmd t, addrAddCmd t, linkUpCmd t]

/-- At least one of the add, address-assignment or link-up commands for `t`
fails under `env` (the failure cases of one tunnel iteration). -/
def tunnelFails (env : Env) (t : Tunnel) : Prop :=
  (env (tunnelAddCmd t)).2 = false ∨ (env (addrAddCmd t)).2 = false ∨
    (env (linkUpCmd t)).2 = false

instance (env : Env) (t : Tunnel) : Decidable (tunnelFails env t) :=
  inferInstanceAs (Decidable ((env (tunnelAddCmd t)).2 = false ∨
    (env (addrAddCmd t)).2 = false ∨ (env (linkUpCmd t)).2 = false))

/-- The commands `src/main.go` issues for a tunnel whose iteration fails:
the unconditional delete, then the steps up to and including the first
failing one. -/
def tunnelFailChunk (env : Env) (t : Tunnel) : List Cmd :=
  if (env (tunnelAddCmd t)).2 = false then [tunnelDelCmd t, tunnelAddCmd t]
  else if (env (addrAddCmd t)).2 = false then
    [tunnelDelCmd t, tunnelAddCmd t, addrAddCmd t]
  else [tunnelDelCmd t, tunnelAddCmd t, addrAddCmd t, linkUpCmd t]

/-- The probe-and-conditional-delete commands the README revision issues at
the start of one tunnel iteration. -/
def v2Head (env : Env) (t : Tunnel) : List Cmd :=
  tunnelShowCmd ::
    (if KrouterV2.tunnelExists (env tunnelShowCmd) t.name then
      [tunnelDelCmd t]
     else [])

/-- The commands the README revision issues for one successful tunnel
iteration. -/
def v2TunnelChunk (env : Env) (t : Tunnel) : List Cmd :=
  v2Head env t ++ [tunnelAddCmd t, addrAddCmd t, linkUpCmd t]

/-- The commands the README revision issues for a failing tunnel iteration:
probe, conditional delete, then the steps up to and including the first
failing one. -/
def v2TunnelFailChunk (env : Env) (t : Tunnel) : List Cmd :=
  v2Head env t ++
    (if (env (tunnelAddCmd t)).2 = false then [tunnelAddCmd t]
     else if (env (addrAddCmd t)).2 = false then
       [tunnelAddCmd t, addrAddCmd t]
     else [tunnelAddCmd t, addrAddCmd t, linkUpCmd t])

/-- First example tunnel (from the README example configuration). -/
def t1c : Tunnel := ⟨"gre1", "192.168.1.1", "10.0.0.1", "10.0.0.2", "30"⟩

/-- Second example tunnel (from the README example configuration). -/
def t2c : Tunnel := ⟨"gre2", "192.168.1.2", "10.0.0.2", "10.0.0.3", "30"⟩

/-- Example static routes (from the README example configuration). -/
def r1c : StaticRoute := ⟨"192.168.2.0/24", "192.168.1.254"⟩

/-- A second example static route. -/
def r2c : StaticRoute := ⟨"192.168.3.0/24", "192.168.1.254"⟩

/-- Example ECMP route (from the README example configuration). -/
def e1c : ECMPRoute :=
  ⟨"default", "GRE", [⟨"gre1", "10.0.40.5", 1⟩, ⟨"gre2", "10.0.41.5", 1⟩]⟩

/-- Example program settings. -/
def ps0 : ProgramSettings := ⟨"/var/log/krouter/gre.log", true, true, false⟩

/-- Example configuration with two tunnels, two static routes and one ECMP
group. -/
def cfgW : Config := ⟨ps0, [t1c, t2c], [r1c, r2c], [e1c]⟩

/-- Empty configuration. -/
def cfg0 : Config := ⟨ps0, [], [], []⟩

/-- Environment where every command succeeds with empty output. -/
def env0 : Env := fun _ => ("", true)

/-- Environment where adding tunnel `gre1` fails and everything else
succeeds with empty output. -/
def envC1 : Env := fun c => ("", !(c == tunnelAddCmd t1c))

/-- Environment where assigning the address of tunnel `gre1` fails and
everything else succeeds with empty output. -/
def envAddrFail : Env := fun c => ("", !(c == addrAddCmd t1c))

/-- Environment whose `ip route show` output contains both the destination
and the gateway of `r1c` (on separate lines) and nothing else. -/
def envC3 : Env := fun c =>
  (if c == routeShowCmd then "192.168.2.0/24 dev eth0\nfoo via 192.168.1.254"
   else "", true)

/-- Watch-loop state with an empty stored fingerprint. -/
def st0 : Krouter.WatchState := ⟨"", cfg0⟩

/-- The bytes of `weight: 1` (a fragment of the example config). -/
def w1bytes : List Nat := "weight: 1".data.map Char.toNat

/-- The bytes of `weight: 2`: the same fragment after a one-byte edit. -/
def w2bytes : List Nat := "weight: 2".data.map Char.toNat

lemma goStartsWith_nil_right (s : List Char) : goStartsWith s [] = true := by
  cases s <;> rfl

lemma goStartsWith_nil_left (b : Char) (t : List Char) :
    goStartsWith [] (b :: t) = false := rfl

lemma goStartsWith_cons (a : Char) (s : List Char) (b : Char) (t : List Char) :
    goStartsWith (a :: s) (b :: t) = (decide (a = b) && goStartsWith s t) := rfl

lemma goStartsWith_iff (s pre : List Char) :
    goStartsWith s pre = true ↔ pre <+: s := by
  induction s generalizing pre with
  | nil =>
    cases pre with
    | nil => simp [goStartsWith_nil_right]
    | cons b t => simp [goStartsWith_nil_left]
  | cons a s ih =>
    cases pre with
    | nil => simp [goStartsWith_nil_right]
    | cons b t =>
      rw [goStartsWith_cons]
      simp only [Bool.and_eq_true, decide_eq_true_eq, ih, List.cons_prefix_cons]
      exact and_congr eq_comm Iff.rfl

lemma goContains_iff (s sub : List Char) :
    goContains s sub = true ↔ sub <:+: s := by
  induction s with
  | nil => simp [goContains, goStartsWith_iff, List.infix_nil, List.prefix_nil]
  | cons a s ih =>
    rw [goContains]
    simp only [Bool.or_eq_true, goStartsWith_iff, ih, List.infix_cons_iff]

lemma foldl_append_eq {α β : Type} (f : α → List β) (l : List α)
    (init : List β) :
    l.foldl (fun acc a => acc ++ f a) init = init ++ l.flatMap f := by
  induction l generalizing init with
  | nil => simp
  | cons a l ih => simp [ih, List.append_assoc]

lemma nexthopArgs_eq (nhs : List Nexthop) :
    nexthopArgs nhs = nhs.flatMap (fun nh =>
      ["nexthop", "dev", nh.dev, "via", nh.via, "weight",
        toString nh.weight]) := by
  simpa using
    foldl_append_eq
      (fun nh : Nexthop =>
        ["nexthop", "dev", nh.dev, "via", nh.via, "weight",
          toString nh.weight])
      nhs []

/-- C6: for every ECMP route spec, the constructed apply command is a single
`route add` invocation containing the route selector, the markers
`proto static` and `scope global`, the spec's table name, and then, for each
nexthop in the spec's order, the literal arguments `nexthop`,
`dev <device>`, `via <address>`, `weight <weight>`; and the ECMP phase of
`src/main.go` issues exactly this one command per spec. -/
theorem c6_ecmp_command_construction :
    (∀ e : ECMPRoute,
        ecmpAddCmd e = ⟨"ip",
          ["route", "add", e.route, "proto", "static", "scope", "global",
            "table", e.table] ++
            e.nexthops.flatMap (fun nh =>
              ["nexthop", "dev", nh.dev, "via", nh.via, "weight",
                toString nh.weight])⟩) ∧
    ∀ (env : Env) (es : List ECMPRoute),
      (Krouter.setupECMPRoutes env es).1 = es.map ecmpAddCmd := by
  constructor
  · intro e
    simp [ecmpAddCmd, ecmpArgs, nexthopArgs_eq]
  · intro env es
    induction es with
    | nil => rfl
    | cons e es ih => simp [Krouter.setupECMPRoutes, ih]

/-- C7: `routeExists(destination, gateway)` returns true exactly when the
destination string and the gateway string each occur as a substring anywhere
in the `ip route show` output; in particular (second conjunct) they need not
occur on the same line. -/
theorem c7_routeExists_substring_match :
    (∀ (out : String) (e : Bool) (d g : String),
        KrouterV2.routeExists (out, e) d g = true ↔
          d.data <:+: out.data ∧ g.data <:+: out.data) ∧
    KrouterV2.routeExists
        ("192.168.2.0/24 via 10.9.9.9 dev eth0\ndefault via 192.168.1.254",
          true)
        "192.168.2.0/24" "192.168.1.254" = true := by
  constructor
  · intro out e d g
    simp [KrouterV2.routeExists, goContains_iff]
  · decide

lemma krouter_static_ok (env : Env) (rs : List StaticRoute) :
    (Krouter.setupStaticRoutes env rs).2 = true := by
  induction rs with
  | nil => rfl
  | cons r rest ih => simp [Krouter.setupStaticRoutes, ih]

lemma krouter_ecmp_ok (env : Env) (es : List ECMPRoute) :
    (Krouter.setupECMPRoutes env es).2 = true := by
  induction es with
  | nil => rfl
  | cons e rest ih => simp [Krouter.setupECMPRoutes, ih]

lemma v2_static_ok (env : Env) (rs : List StaticRoute) :
    (KrouterV2.setupStaticRoutes env rs).2 = true := by
  induction rs with
  | nil => rfl
  | cons r rest ih =>
    simp only [KrouterV2.setupStaticRoutes]
    split <;> simpa using ih

lemma v2_ecmp_ok (env : Env) (es : List ECMPRoute) :
    (KrouterV2.setupECMPRoutes env es).2 = true := by
  induction es with
  | nil => rfl
  | cons e rest ih =>
    simp only [KrouterV2.setupECMPRoutes]
    split <;> simpa using ih

lemma startup_no_fatal_route (loadRes : Option Config) (env : Env)
    (bs : Option (List Nat)) :
    (Krouter.startupPass loadRes env bs).1 ≠ Krouter.Outcome.fatalStatic ∧
      (Krouter.startupPass loadRes env bs).1 ≠ Krouter.Outcome.fatalEcmp := by
  cases loadRes with
  | none => simp [Krouter.startupPass]
  | some cfg =>
    simp only [Krouter.startupPass, krouter_static_ok, krouter_ecmp_ok]
    cases h1 : (Krouter.setupGRETunnels env cfg.greTunnels).2 <;>
      cases bs <;> simp [krouter_static_ok, krouter_ecmp_ok]

/-- C8: `setupStaticRoutes` and `setupECMPRoutes` return `nil` for every
input (in both revisions of the source), so the fatal startup-abort branches
for the static-route and ECMP phases in `main` are unreachable: of the apply
phases, only a tunnel failure can end a startup pass. -/
theorem c8_route_phases_never_fail :
    (∀ (env : Env) (rs : List StaticRoute),
        (Krouter.setupStaticRoutes env rs).2 = true) ∧
    (∀ (env : Env) (es : List ECMPRoute),
        (Krouter.setupECMPRoutes env es).2 = true) ∧
    (∀ (env : Env) (rs : List StaticRoute),
        (KrouterV2.setupStaticRoutes env rs).2 = true) ∧
    (∀ (env : Env) (es : List ECMPRoute),
        (KrouterV2.setupECMPRoutes env es).2 = true) ∧
    ∀ (loadRes : Option Config) (env : Env) (bs : Option (List Nat)),
      (Krouter.startupPass loadRes env bs).1 ≠ Krouter.Outcome.fatalStatic ∧
        (Krouter.startupPass loadRes env bs).1 ≠ Krouter.Outcome.fatalEcmp := by
  exact ⟨krouter_static_ok, krouter_ecmp_ok, v2_static_ok, v2_ecmp_ok,
    startup_no_fatal_route⟩

lemma gre_all_ok (env : Env) (ts : List Tunnel)
    (h : ∀ t ∈ ts, tunnelOk env t) :
    Krouter.setupGRETunnels env ts = (ts.flatMap tunnelChunk, true) := by
  induction ts with
  | nil => rfl
  | cons t rest ih =>
    obtain ⟨h1, h2, h3⟩ := h t (by simp)
    rw [Krouter.setupGRETunnels]
    simp [h1, h2, h3, ih (fun u hu => h u (by simp [hu])), tunnelChunk]

lemma gre_fail_head (env : Env) (t : Tunnel) (rest : List Tunnel)
    (hf : tunnelFails env t) :
    Krouter.setupGRETunnels env (t :: rest) =
      (tunnelFailChunk env t, false) := by
  rw [Krouter.setupGRETunnels]
  cases hadd : (env (tunnelAddCmd t)).2 with
  | false => simp [tunnelFailChunk, hadd]
  | true =>
    cases haddr : (env (addrAddCmd t)).2 with
    | false => simp [tunnelFailChunk, hadd, haddr]
    | true =>
      cases hup : (env (linkUpCmd t)).2 with
      | false => simp [tunnelFailChunk, hadd, haddr, hup]
      | true => rcases hf with h | h | h <;> simp_all

lemma gre_abort_fail (env : Env) (pre : List Tunnel) (t : Tunnel)
    (rest : List Tunnel) (hpre : ∀ u ∈ pre, tunnelOk env u)
    (hf : tunnelFails env t) :
    Krouter.setupGRETunnels env (pre ++ t :: rest) =
      (pre.flatMap tunnelChunk ++ tunnelFailChunk env t, false) := by
  induction pre with
  | nil => simpa using gre_fail_head env t rest hf
  | cons u pre ih =>
    obtain ⟨h1, h2, h3⟩ := hpre u (by simp)
    rw [List.cons_append, Krouter.setupGRETunnels]
    simp [h1, h2, h3, ih (fun v hv => hpre v (by simp [hv])), tunnelChunk]

lemma v2_gre_all_ok (env : Env) (ts : List Tunnel)
    (h : ∀ t ∈ ts, tunnelOk env t) :
    KrouterV2.setupGRETunnels env ts =
      (ts.flatMap (v2TunnelChunk env), true) := by
  induction ts with
  | nil => rfl
  | cons t rest ih =>
    obtain ⟨h1, h2, h3⟩ := h t (by simp)
    rw [KrouterV2.setupGRETunnels]
    simp [h1, h2, h3, ih (fun u hu => h u (by simp [hu])), v2TunnelChunk,
      v2Head]

lemma v2_gre_fail_head (env : Env) (t : Tunnel) (rest : List Tunnel)
    (hf : tunnelFails env t) :
    KrouterV2.setupGRETunnels env (t :: rest) =
      (v2TunnelFailChunk env t, false) := by
  rw [KrouterV2.setupGRETunnels]
  cases hadd : (env (tunnelAddCmd t)).2 with
  | false => simp [v2TunnelFailChunk, v2Head, hadd]
  | true =>
    cases haddr : (env (addrAddCmd t)).2 with
    | false => simp [v2TunnelFailChunk, v2Head, hadd, haddr]
    | true =>
      cases hup : (env (linkUpCmd t)).2 with
      | false => simp [v2TunnelFailChunk, v2Head, hadd, haddr, hup]
      | true => rcases hf with h | h | h <;> simp_all

lemma v2_gre_abort_fail (env : Env) (pre : List Tunnel) (t : Tunnel)
    (rest : List Tunnel) (hpre : ∀ u ∈ pre, tunnelOk env u)
    (hf : tunnelFails env t) :
    KrouterV2.setupGRETunnels env (pre ++ t :: rest) =
      (pre.flatMap (v2TunnelChunk env) ++ v2TunnelFailChunk env t,
        false) := by
  induction pre with
  | nil => simpa using v2_gre_fail_head env t rest hf
  | cons u pre ih =>
    obtain ⟨h1, h2, h3⟩ := hpre u (by simp)
    rw [List.cons_append, KrouterV2.setupGRETunnels]
    simp [h1, h2, h3, ih (fun v hv => hpre v (by simp [hv])),
      v2TunnelChunk, v2Head]


/-- C9: whatever the environment reports (in particular when every tunnel
already exists), as long as the add / address / link-up commands succeed,
the tunnel phase of `src/main.go` issues for every tunnel spec the
unconditional sequence delete, create, address, up — the delete precedes
the create and the create is never skipped. -/
theorem c9_always_recreates (env : Env) (ts : List Tunnel)
    (h : ∀ t ∈ ts, tunnelOk env t) :
    Krouter.setupGRETunnels env ts = (ts.flatMap tunnelChunk, true) :=
  gre_all_ok env ts h

/-- Witness for C9 at a concrete environment and tunnel list. -/
theorem c9_witness :
    (∀ t ∈ [t1c, t2c], tunnelOk env0 t) ∧
      Krouter.setupGRETunnels env0 [t1c, t2c] =
        ([t1c, t2c].flatMap tunnelChunk, true) :=
  ⟨by decide, c9_always_recreates env0 [t1c, t2c] (by decide)⟩

/-- C1 counterexample: with two tunnel specs where adding the first tunnel
fails, both revisions issue no command at all for the second spec — a
per-tunnel creation failure does abort the remaining tunnels of the
phase. -/
theorem c1_counterexample :
    (Krouter.setupGRETunnels envC1 [t1c, t2c]).1 =
        [tunnelDelCmd t1c, tunnelAddCmd t1c] ∧
      tunnelAddCmd t2c ∉ (Krouter.setupGRETunnels envC1 [t1c, t2c]).1 ∧
      tunnelDelCmd t2c ∉ (Krouter.setupGRETunnels envC1 [t1c, t2c]).1 ∧
      (KrouterV2.setupGRETunnels envC1 [t1c, t2c]).1 =
        [tunnelShowCmd, tunnelAddCmd t1c] := by
  decide

/-- C1 as amended: in both revisions, a failure of the delete step never
aborts the phase (the first conjunct constrains only add/address/up and
still yields a clean pass), but a failure of the create, address-assignment
or link-up step for tunnel `t` returns immediately, in `src/main.go` and in
the README revision alike: the tunnel specs after `t` contribute no
commands to the pass, and the trace ends with the steps up to the first
failing one. -/
theorem c1_amended_create_failure_aborts :
    (∀ (env : Env) (ts : List Tunnel), (∀ t ∈ ts, tunnelOk env t) →
        (Krouter.setupGRETunnels env ts).2 = true ∧
          (KrouterV2.setupGRETunnels env ts).2 = true) ∧
    (∀ (env : Env) (pre : List Tunnel) (t : Tunnel) (rest : List Tunnel),
        (∀ u ∈ pre, tunnelOk env u) → tunnelFails env t →
        Krouter.setupGRETunnels env (pre ++ t :: rest) =
          (pre.flatMap tunnelChunk ++ tunnelFailChunk env t, false)) ∧
    ∀ (env : Env) (pre : List Tunnel) (t : Tunnel) (rest : List Tunnel),
      (∀ u ∈ pre, tunnelOk env u) → tunnelFails env t →
      KrouterV2.setupGRETunnels env (pre ++ t :: rest) =
        (pre.flatMap (v2TunnelChunk env) ++ v2TunnelFailChunk env t,
          false) := by
  refine ⟨?_, gre_abort_fail, v2_gre_abort_fail⟩
  intro env ts h
  rw [gre_all_ok env ts h, v2_gre_all_ok env ts h]
  exact ⟨rfl, rfl⟩

/-- Witness for the amended C1, exercising the address-assignment failure
case in both revisions: the address assignment of tunnel `gre1` fails, tunnel
`gre2` is behind it and is dropped by both revisions. -/
theorem c1_amended_witness :
    (∀ u ∈ ([] : List Tunnel), tunnelOk envAddrFail u) ∧
      tunnelFails envAddrFail t1c ∧
      Krouter.setupGRETunnels envAddrFail ([] ++ t1c :: [t2c]) =
        (([] : List Tunnel).flatMap tunnelChunk ++
          tunnelFailChunk envAddrFail t1c, false) ∧
      KrouterV2.setupGRETunnels envAddrFail ([] ++ t1c :: [t2c]) =
        (([] : List Tunnel).flatMap (v2TunnelChunk envAddrFail) ++
          v2TunnelFailChunk envAddrFail t1c, false) :=
  ⟨by decide, by decide,
    c1_amended_create_failure_aborts.2.1 envAddrFail [] t1c [t2c]
      (by decide) (by decide),
    c1_amended_create_failure_aborts.2.2 envAddrFail [] t1c [t2c]
      (by decide) (by decide)⟩

lemma v2_static_trace (env : Env) (rs : List StaticRoute) :
    (KrouterV2.setupStaticRoutes env rs).1 =
      rs.flatMap (fun r =>
        routeShowCmd ::
          (if KrouterV2.routeExists (env routeShowCmd) r.destination
              r.gateway
           then []
           else [staticAddCmd r])) := by
  induction rs with
  | nil => rfl
  | cons r rest ih =>
    rw [KrouterV2.setupStaticRoutes]
    split
    rename_i tr ok heq
    rw [heq] at ih
    simp only [Prod.fst] at ih
    cases hprobe :
        KrouterV2.routeExists (env routeShowCmd) r.destination r.gateway with
    | true => simp [hprobe, ih]
    | false => simp [hprobe, ih]

lemma v2_static_add_mem (env : Env) (rs : List StaticRoute)
    (r : StaticRoute) (hr : r ∈ rs) :
    staticAddCmd r ∈ (KrouterV2.setupStaticRoutes env rs).1 ↔
      KrouterV2.routeExists (env routeShowCmd) r.destination r.gateway =
        false := by
  rw [v2_static_trace]
  constructor
  · intro hmem
    rw [List.mem_flatMap] at hmem
    obtain ⟨r2, _, hin⟩ := hmem
    rw [List.mem_cons] at hin
    rcases hin with h1 | h2
    · simp [staticAddCmd, routeShowCmd] at h1
    · split at h2
      · simp at h2
      · rename_i hprobe
        simp only [List.mem_singleton] at h2
        have hdg : r.destination = r2.destination ∧ r.gateway = r2.gateway := by
          simpa [staticAddCmd, Cmd.mk.injEq] using h2
        rw [hdg.1, hdg.2]
        simpa using hprobe
  · intro hfalse
    rw [List.mem_flatMap]
    exact ⟨r, hr, by simp [hfalse]⟩

lemma krouter_static_trace (env : Env) (rs : List StaticRoute) :
    (Krouter.setupStaticRoutes env rs).1 = rs.map staticAddCmd := by
  induction rs with
  | nil => rfl
  | cons r rest ih => simp [Krouter.setupStaticRoutes, ih]

/-- C3 counterexample: in `src/main.go`, even in an environment whose
`ip route show` output contains both the destination and the gateway of the
spec (so `routeExists` of the README revision reports true), the
static-route phase still issues the mutating `ip route add`. -/
theorem c3_counterexample :
    KrouterV2.routeExists (envC3 routeShowCmd) r1c.destination r1c.gateway =
        true ∧
      staticAddCmd r1c ∈ (Krouter.setupStaticRoutes envC3 [r1c]).1 := by
  decide

/-- C3 as amended: in `src/main.go` the route add is issued unconditionally
for every static route spec, with no existence probe; only in the revision
embedded in `src/README.md` is the add issued exactly when `routeExists`
reports false, with no mutating command for a route whose probe reports
true. -/
theorem c3_amended_guard_only_in_v2 :
    (∀ (env : Env) (rs : List StaticRoute),
        (Krouter.setupStaticRoutes env rs).1 = rs.map staticAddCmd) ∧
    (∀ (env : Env) (rs : List StaticRoute),
        (KrouterV2.setupStaticRoutes env rs).1 =
          rs.flatMap (fun r =>
            routeShowCmd ::
              (if KrouterV2.routeExists (env routeShowCmd) r.destination
                  r.gateway
               then []
               else [staticAddCmd r]))) ∧
    ∀ (env : Env) (rs : List StaticRoute) (r : StaticRoute), r ∈ rs →
      (staticAddCmd r ∈ (KrouterV2.setupStaticRoutes env rs).1 ↔
        KrouterV2.routeExists (env routeShowCmd) r.destination r.gateway =
          false) :=
  ⟨krouter_static_trace, v2_static_trace,
    fun env rs r hr => v2_static_add_mem env rs r hr⟩

/-- Witness for the amended C3: `r2c` is absent from the probe output, so
its add is issued; the membership equivalence is applied at `r2c`. -/
theorem c3_amended_witness :
    r2c ∈ [r1c, r2c] ∧
      (staticAddCmd r2c ∈ (KrouterV2.setupStaticRoutes envC3 [r1c, r2c]).1 ↔
        KrouterV2.routeExists (envC3 routeShowCmd) r2c.destination
            r2c.gateway =
          false) :=
  ⟨by decide,
    c3_amended_guard_only_in_v2.2.2 envC3 [r1c, r2c] r2c (by decide)⟩

lemma goContains_empty {sub : List Char} (h : sub ≠ []) :
    goContains [] sub = false := by
  cases sub with
  | nil => exact absurd rfl h
  | cons b t => rfl

lemma data_ne_nil {n : String} (h : n ≠ "") : n.data ≠ [] :=
  fun hd => h (String.ext (hd.trans rfl))

lemma tunnelExists_out_empty (res : String × Bool) (h1 : res.1 = "")
    (n : String) (h : n ≠ "") : KrouterV2.tunnelExists res n = false := by
  simp only [KrouterV2.tunnelExists, h1]
  exact goContains_empty (data_ne_nil h)

lemma routeExists_out_empty (res : String × Bool) (h1 : res.1 = "")
    (d g : String) (h : d ≠ "") : KrouterV2.routeExists res d g = false := by
  simp only [KrouterV2.routeExists, h1]
  rw [goContains_empty (data_ne_nil h)]
  rfl

lemma ecmpRouteExists_out_empty (res : String × Bool) (h1 : res.1 = "")
    (r : String) : KrouterV2.ecmpRouteExists res r = false := by
  simp only [KrouterV2.ecmpRouteExists, h1]
  rfl

lemma del_ne_show (u : Tunnel) : tunnelDelCmd u ≠ tunnelShowCmd := by
  simp [tunnelDelCmd, tunnelShowCmd]

lemma del_ne_add (u t : Tunnel) : tunnelDelCmd u ≠ tunnelAddCmd t := by
  simp [tunnelDelCmd, tunnelAddCmd]

lemma del_ne_addr (u t : Tunnel) : tunnelDelCmd u ≠ addrAddCmd t := by
  simp [tunnelDelCmd, addrAddCmd]

lemma del_ne_up (u t : Tunnel) : tunnelDelCmd u ≠ linkUpCmd t := by
  simp [tunnelDelCmd, linkUpCmd]

lemma v2_static_trace_empty (env : Env) (rs : List StaticRoute)
    (hout : ∀ c, (env c).1 = "") (hne : ∀ r ∈ rs, r.destination ≠ "") :
    (KrouterV2.setupStaticRoutes env rs).1 =
      rs.flatMap (fun r => [routeShowCmd, staticAddCmd r]) := by
  rw [v2_static_trace]
  induction rs with
  | nil => rfl
  | cons r rest ih =>
    have hprobe :=
      routeExists_out_empty (env routeShowCmd) (hout routeShowCmd)
        r.destination r.gateway (hne r (by simp))
    simp [hprobe, ih (fun u hu => hne u (by simp [hu]))]

lemma v2_ecmp_trace_empty (env : Env) (es : List ECMPRoute)
    (hout : ∀ c, (env c).1 = "") :
    (KrouterV2.setupECMPRoutes env es).1 =
      es.flatMap (fun e => [routeShowTableCmd e.table, ecmpAddCmd e]) := by
  induction es with
  | nil => rfl
  | cons e rest ih =>
    have hprobe :=
      ecmpRouteExists_out_empty (env (routeShowTableCmd e.table))
        (hout (routeShowTableCmd e.table)) e.route
    rw [KrouterV2.setupECMPRoutes]
    split
    rename_i tr ok heq
    rw [heq] at ih
    simp only [Prod.fst] at ih
    simp [hprobe, ih]

lemma v2_gre_no_delete (env : Env) (ts : List Tunnel)
    (hout : ∀ c, (env c).1 = "") (hne : ∀ u ∈ ts, u.name ≠ "") :
    ∀ u, tunnelDelCmd u ∉ (KrouterV2.setupGRETunnels env ts).1 := by
  induction ts with
  | nil =>
    intro u
    simp [KrouterV2.setupGRETunnels]
  | cons t rest ih =>
    intro u
    have hprobe :=
      tunnelExists_out_empty (env tunnelShowCmd) (hout tunnelShowCmd)
        t.name (hne t (by simp))
    have ihu := ih (fun v hv => hne v (by simp [hv])) u
    rcases hrest : KrouterV2.setupGRETunnels env rest with ⟨tr, ok⟩
    rw [hrest] at ihu
    replace ihu : tunnelDelCmd u ∉ tr := ihu
    rw [KrouterV2.setupGRETunnels, hrest]
    cases hadd : (env (tunnelAddCmd t)).2 with
    | false => simp [hadd, hprobe, del_ne_show, del_ne_add]
    | true =>
      cases haddr : (env (addrAddCmd t)).2 with
      | false =>
        simp [hadd, haddr, hprobe, del_ne_show, del_ne_add, del_ne_addr]
      | true =>
        cases hup : (env (linkUpCmd t)).2 with
        | false =>
          simp [hadd, haddr, hup, hprobe, del_ne_show, del_ne_add,
            del_ne_addr, del_ne_up]
        | true =>
          simp [hadd, haddr, hup, hprobe, del_ne_show, del_ne_add,
            del_ne_addr, del_ne_up, ihu]

/-- C10: the existence probes use only the captured output, never the error
result of their query command (first conjunct: changing the error bit never
changes the probe). With an empty captured output — what a failed query
leaves behind — every probe reports absence: `routeExists` and
`ecmpRouteExists` then let the add be attempted for every spec, and
`tunnelExists` makes the tunnel phase skip the stale-tunnel delete. -/
theorem c10_probes_discard_error :
    (∀ (o : String) (b bb : Bool) (n d g r : String),
        KrouterV2.tunnelExists (o, b) n = KrouterV2.tunnelExists (o, bb) n ∧
        KrouterV2.routeExists (o, b) d g = KrouterV2.routeExists (o, bb) d g ∧
        KrouterV2.ecmpRouteExists (o, b) r =
          KrouterV2.ecmpRouteExists (o, bb) r) ∧
    (∀ (b : Bool) (n : String), n ≠ "" →
        KrouterV2.tunnelExists ("", b) n = false) ∧
    (∀ (b : Bool) (d g : String), d ≠ "" →
        KrouterV2.routeExists ("", b) d g = false) ∧
    (∀ (b : Bool) (r : String), KrouterV2.ecmpRouteExists ("", b) r = false) ∧
    (∀ (env : Env) (rs : List StaticRoute), (∀ c, (env c).1 = "") →
        (∀ r ∈ rs, r.destination ≠ "") →
        (KrouterV2.setupStaticRoutes env rs).1 =
          rs.flatMap (fun r => [routeShowCmd, staticAddCmd r])) ∧
    (∀ (env : Env) (es : List ECMPRoute), (∀ c, (env c).1 = "") →
        (KrouterV2.setupECMPRoutes env es).1 =
          es.flatMap (fun e => [routeShowTableCmd e.table, ecmpAddCmd e])) ∧
    ∀ (env : Env) (ts : List Tunnel), (∀ c, (env c).1 = "") →
      (∀ u ∈ ts, u.name ≠ "") →
      ∀ u, tunnelDelCmd u ∉ (KrouterV2.setupGRETunnels env ts).1 := by
  refine ⟨fun o b bb n d g r => ⟨rfl, rfl, rfl⟩, ?_, ?_, ?_, ?_, ?_, ?_⟩
  · exact fun b n h => tunnelExists_out_empty ("", b) rfl n h
  · exact fun b d g h => routeExists_out_empty ("", b) rfl d g h
  · exact fun b r => ecmpRouteExists_out_empty ("", b) rfl r
  · exact v2_static_trace_empty
  · exact v2_ecmp_trace_empty
  · exact v2_gre_no_delete

/-- Witness for C10: with every output empty, the delete for `gre1` is
skipped, the static add for `r1c` is attempted, and the ECMP add for `e1c`
is attempted. -/
theorem c10_witness :
    ("gre1" ≠ "") ∧
      KrouterV2.tunnelExists ("", true) "gre1" = false ∧
      tunnelDelCmd t1c ∉ (KrouterV2.setupGRETunnels env0 [t1c]).1 ∧
      (KrouterV2.setupStaticRoutes env0 [r1c]).1 =
        [routeShowCmd, staticAddCmd r1c] ∧
      (KrouterV2.setupECMPRoutes env0 [e1c]).1 =
        [routeShowTableCmd "GRE", ecmpAddCmd e1c] :=
  ⟨by decide,
    c10_probes_discard_error.2.1 true "gre1" (by decide),
    c10_probes_discard_error.2.2.2.2.2.2 env0 [t1c] (fun c => rfl)
      (by decide) t1c,
    by
      rw [c10_probes_discard_error.2.2.2.2.1 env0 [r1c] (fun c => rfl)
        (by decide)]
      rfl,
    by
      rw [c10_probes_discard_error.2.2.2.2.2.1 env0 [e1c] (fun c => rfl)]
      rfl⟩

lemma tunnelChunk_class (env : Env) (ts : List Tunnel) :
    ∀ c ∈ (Krouter.setupGRETunnels env ts).1,
      isTunnelOp c = true ∧ isStaticOp c = false ∧ isEcmpOp c = false := by
  induction ts with
  | nil => simp [Krouter.setupGRETunnels]
  | cons t rest ih =>
    intro c hc
    rw [Krouter.setupGRETunnels] at hc
    rcases hrest : Krouter.setupGRETunnels env rest with ⟨tr, ok⟩
    rw [hrest] at hc ih
    split at hc <;>
      [skip; split at hc <;>
        [skip; split at hc]] <;>
      simp only [List.mem_cons, List.mem_singleton, Prod.fst] at hc <;>
      rcases hc with hc | hc | hc | hc | hc <;>
      first
        | (subst hc
           constructor
           · simp [isTunnelOp, tunnelDelCmd, tunnelAddCmd, addrAddCmd,
               linkUpCmd]
           constructor
           · simp [isStaticOp, tunnelDelCmd, tunnelAddCmd, addrAddCmd,
               linkUpCmd]
           · simp [isEcmpOp, tunnelDelCmd, tunnelAddCmd, addrAddCmd,
               linkUpCmd])
        | exact ih c hc
        | simp at hc

lemma staticTrace_class (env : Env) (rs : List StaticRoute) :
    ∀ c ∈ (Krouter.setupStaticRoutes env rs).1,
      isStaticOp c = true ∧ isTunnelOp c = false ∧ isEcmpOp c = false := by
  intro c hc
  rw [krouter_static_trace] at hc
  rw [List.mem_map] at hc
  obtain ⟨r, _, hr⟩ := hc
  subst hr
  refine ⟨?_, ?_, ?_⟩
  · simp [isStaticOp, staticAddCmd]
  · simp [isTunnelOp, staticAddCmd]
  · simp [isEcmpOp, staticAddCmd]

lemma krouter_ecmp_trace (env : Env) (es : List ECMPRoute) :
    (Krouter.setupECMPRoutes env es).1 = es.map ecmpAddCmd := by
  induction es with
  | nil => rfl
  | cons e rest ih => simp [Krouter.setupECMPRoutes, ih]

lemma ecmpTrace_class (env : Env) (es : List ECMPRoute) :
    ∀ c ∈ (Krouter.setupECMPRoutes env es).1,
      isEcmpOp c = true ∧ isTunnelOp c = false ∧ isStaticOp c = false := by
  intro c hc
  rw [krouter_ecmp_trace] at hc
  rw [List.mem_map] at hc
  obtain ⟨e, _, he⟩ := hc
  subst he
  refine ⟨?_, ?_, ?_⟩
  · simp [isEcmpOp, ecmpAddCmd, ecmpArgs]
  · simp [isTunnelOp, ecmpAddCmd, ecmpArgs]
  · simp [isStaticOp, ecmpAddCmd, ecmpArgs]

lemma before_of_append {P Q : Cmd → Bool} (A B : List Cmd)
    (hA : ∀ c ∈ A, Q c = false) (hB : ∀ c ∈ B, P c = false) :
    ∀ i j (hi : i < (A ++ B).length) (hj : j < (A ++ B).length),
      P ((A ++ B).get ⟨i, hi⟩) = true → Q ((A ++ B).get ⟨j, hj⟩) = true →
      i < j := by
  intro i j hi hj hP hQ
  rw [List.get_eq_getElem] at hP hQ
  have hiA : i < A.length := by
    by_contra hge
    push_neg at hge
    rw [List.getElem_append_right hge] at hP
    rw [hB _ (List.getElem_mem _)] at hP
    exact Bool.false_ne_true hP
  have hjA : A.length ≤ j := by
    by_contra hlt
    push_neg at hlt
    rw [List.getElem_append_left hlt] at hQ
    rw [hA _ (List.getElem_mem _)] at hQ
    exact Bool.false_ne_true hQ
  omega

lemma ordered_of_parts (A B C : List Cmd)
    (hA : ∀ c ∈ A,
      isTunnelOp c = true ∧ isStaticOp c = false ∧ isEcmpOp c = false)
    (hB : ∀ c ∈ B,
      isStaticOp c = true ∧ isTunnelOp c = false ∧ isEcmpOp c = false)
    (hC : ∀ c ∈ C,
      isEcmpOp c = true ∧ isTunnelOp c = false ∧ isStaticOp c = false) :
    orderedTrace (A ++ B ++ C) := by
  constructor
  · rw [List.append_assoc]
    exact before_of_append (P := isTunnelOp) (Q := isStaticOp) A (B ++ C)
      (fun c hc => (hA c hc).2.1)
      (fun c hc => by
        rcases List.mem_append.1 hc with h | h
        exacts [(hB c h).2.1, (hC c h).2.1])
  · exact before_of_append (P := isStaticOp) (Q := isEcmpOp) (A ++ B) C
      (fun c hc => by
        rcases List.mem_append.1 hc with h | h
        exacts [(hA c h).2.2, (hB c h).2.2])
      (fun c hc => (hC c hc).2.2)

lemma ordered_nil : orderedTrace ([] : List Cmd) := by
  constructor <;> (intro i j hi hj; simp at hi)

lemma ordered_tunnel_only (A : List Cmd)
    (hA : ∀ c ∈ A,
      isTunnelOp c = true ∧ isStaticOp c = false ∧ isEcmpOp c = false) :
    orderedTrace A := by
  have h := ordered_of_parts A [] [] hA (by simp) (by simp)
  simpa using h

lemma startup_ordered (loadRes : Option Config) (env : Env)
    (bs : Option (List Nat)) :
    orderedTrace (Krouter.startupPass loadRes env bs).2.1 := by
  cases loadRes with
  | none => exact ordered_nil
  | some cfg =>
    have hA := tunnelChunk_class env cfg.greTunnels
    have hB := staticTrace_class env cfg.staticRoutes
    have hC := ecmpTrace_class env cfg.ecmpRoutes
    have hok2 := krouter_static_ok env cfg.staticRoutes
    have hok3 := krouter_ecmp_ok env cfg.ecmpRoutes
    rw [Krouter.startupPass]
    rcases h1 : Krouter.setupGRETunnels env cfg.greTunnels with ⟨t1, ok1⟩
    rw [h1] at hA
    rcases h2 : Krouter.setupStaticRoutes env cfg.staticRoutes with ⟨t2, ok2⟩
    rw [h2] at hB hok2
    rcases h3 : Krouter.setupECMPRoutes env cfg.ecmpRoutes with ⟨t3, ok3⟩
    rw [h3] at hC hok3
    replace hA : ∀ c ∈ t1,
        isTunnelOp c = true ∧ isStaticOp c = false ∧ isEcmpOp c = false := hA
    replace hB : ∀ c ∈ t2,
        isStaticOp c = true ∧ isTunnelOp c = false ∧ isEcmpOp c = false := hB
    replace hC : ∀ c ∈ t3,
        isEcmpOp c = true ∧ isTunnelOp c = false ∧ isStaticOp c = false := hC
    replace hok2 : ok2 = true := hok2
    replace hok3 : ok3 = true := hok3
    subst hok2
    subst hok3
    cases ok1 with
    | false =>
      show orderedTrace t1
      exact ordered_tunnel_only t1 hA
    | true =>
      cases bs <;>
        · show orderedTrace (t1 ++ t2 ++ t3)
          exact ordered_of_parts t1 t2 t3 hA hB hC

lemma watch_ordered (st : Krouter.WatchState) (env : Env) (isW : Bool)
    (fb : Option (List Nat)) (lr : Option Config) :
    orderedTrace (Krouter.watchPass st env isW fb lr).trace := by
  cases isW with
  | false => exact ordered_nil
  | true =>
    cases fb with
    | none => exact ordered_nil
    | some bs =>
      by_cases hh : MD5.md5Hex bs ≠ st.currentHash
      · cases lr with
        | none =>
          have ht : (Krouter.watchPass st env true (some bs) none).trace =
              [] := by
            rw [Krouter.watchPass.eq_def]
            simp [hh]
          rw [ht]
          exact ordered_nil
        | some cfg =>
          have ht :
              (Krouter.watchPass st env true (some bs) (some cfg)).trace =
                Krouter.reconcile env cfg := by
            rw [Krouter.watchPass.eq_def]
            simp [hh]
          rw [ht, Krouter.reconcile]
          exact ordered_of_parts _ _ _ (tunnelChunk_class env cfg.greTunnels)
            (staticTrace_class env cfg.staticRoutes)
            (ecmpTrace_class env cfg.ecmpRoutes)
      · have ht : (Krouter.watchPass st env true (some bs) lr).trace =
            [] := by
          rw [Krouter.watchPass.eq_def]
          simp [hh]
        rw [ht]
        exact ordered_nil

/-- C4: in every reconciliation pass of `src/main.go` — the startup path
and the watch-triggered path alike — the issued command sequence is
strictly phased: every tunnel-phase command precedes every static-route
command, and every static-route command precedes every ECMP-route
command. -/
theorem c4_strict_phasing :
    (∀ (loadRes : Option Config) (env : Env) (bs : Option (List Nat)),
        orderedTrace (Krouter.startupPass loadRes env bs).2.1) ∧
    ∀ (st : Krouter.WatchState) (env : Env) (isW : Bool)
      (fb : Option (List Nat)) (lr : Option Config),
      orderedTrace (Krouter.watchPass st env isW fb lr).trace :=
  ⟨startup_ordered, watch_ordered⟩

/-- Witness for C4: in the startup trace of the example configuration, the
command at index 0 is a tunnel operation, the one at index 8 is a
static-route operation, and the ordering theorem places 0 before 8. -/
theorem c4_witness :
    isTunnelOp ((Krouter.startupPass (some cfgW) env0 none).2.1.get
        ⟨0, by decide⟩) = true ∧
      isStaticOp ((Krouter.startupPass (some cfgW) env0 none).2.1.get
        ⟨8, by decide⟩) = true ∧
      (0 : Nat) < 8 :=
  ⟨by decide, by decide,
    (c4_strict_phasing.1 (some cfgW) env0 none).1 0 8 (by decide) (by decide)
      (by decide) (by decide)⟩

set_option maxRecDepth 10000 in
/-- C2 counterexample: starting from an empty stored fingerprint, a write
event whose bytes hash differently, followed by a failing config load,
leaves the stored fingerprint CHANGED (first conjunct), and an identical
subsequent write event no longer triggers a load attempt (second
conjunct). -/
theorem c2_counterexample :
    (Krouter.watchPass st0 env0 true (some []) none).state.currentHash ≠
        st0.currentHash ∧
      (Krouter.watchPass
          (Krouter.watchPass st0 env0 true (some []) none).state
          env0 true (some []) (some cfg0)).loadAttempted = false := by
  decide

/-- C2 as amended: `currentHash` is updated as soon as a differing hash is
observed, before the load is attempted; when the load then fails the new
fingerprint stays stored, the pass applies nothing, and an identical
subsequent write event is treated as unchanged (no load attempt, no
commands). -/
theorem c2_amended_hash_updated_before_load :
    ∀ (st : Krouter.WatchState) (env : Env) (bs : List Nat),
      MD5.md5Hex bs ≠ st.currentHash →
      (Krouter.watchPass st env true (some bs) none).state =
          ⟨MD5.md5Hex bs, st.config⟩ ∧
        (Krouter.watchPass st env true (some bs) none).trace = [] ∧
        (Krouter.watchPass st env true (some bs) none).loadAttempted =
          true ∧
        ∀ (env2 : Env) (lr : Option Config),
          Krouter.watchPass
              (Krouter.watchPass st env true (some bs) none).state
              env2 true (some bs) lr =
            ⟨(Krouter.watchPass st env true (some bs) none).state, [],
              false⟩ := by
  intro st env bs hh
  have h1 : Krouter.watchPass st env true (some bs) none =
      ⟨⟨MD5.md5Hex bs, st.config⟩, [], true⟩ := by
    rw [Krouter.watchPass.eq_def]
    simp [hh]
  rw [h1]
  refine ⟨rfl, rfl, rfl, ?_⟩
  intro env2 lr
  rw [Krouter.watchPass.eq_def]
  simp

set_option maxRecDepth 10000 in
/-- Witness for the amended C2 at the empty byte list. -/
theorem c2_amended_witness :
    MD5.md5Hex [] ≠ st0.currentHash ∧
      (Krouter.watchPass st0 env0 true (some []) none).state =
        ⟨MD5.md5Hex [], st0.config⟩ :=
  ⟨by decide,
    (c2_amended_hash_updated_before_load st0 env0 [] (by decide)).1⟩

set_option maxRecDepth 10000 in
/-- C5: a write event whose MD5 equals the stored fingerprint is a complete
no-op (state unchanged, no commands, no load attempt); when the MD5
differs, a load is attempted. The closed conjuncts instantiate the spec's
one-byte example: the bytes of `weight: 1` and `weight: 2` hash
differently, so that edit is detected and triggers a load attempt. -/
theorem c5_fingerprint_gating :
    (∀ (st : Krouter.WatchState) (env : Env) (bs : List Nat)
        (lr : Option Config),
        (MD5.md5Hex bs = st.currentHash →
          Krouter.watchPass st env true (some bs) lr = ⟨st, [], false⟩) ∧
        (MD5.md5Hex bs ≠ st.currentHash →
          (Krouter.watchPass st env true (some bs) lr).loadAttempted =
            true)) ∧
    MD5.md5Hex w1bytes ≠ MD5.md5Hex w2bytes ∧
    (Krouter.watchPass ⟨MD5.md5Hex w1bytes, cfg0⟩ env0 true (some w2bytes)
        (some cfg0)).loadAttempted = true := by
  refine ⟨?_, by decide, by decide⟩
  intro st env bs lr
  constructor
  · intro heq
    rw [Krouter.watchPass.eq_def]
    simp [heq]
  · intro hne
    rw [Krouter.watchPass.eq_def]
    cases lr <;> simp [hne]

/-- Witness for C5: a pass whose bytes hash to exactly the stored
fingerprint changes nothing and issues nothing. -/
theorem c5_witness :
    MD5.md5Hex [] =
        (⟨MD5.md5Hex [], cfg0⟩ : Krouter.WatchState).currentHash ∧
      Krouter.watchPass ⟨MD5.md5Hex [], cfg0⟩ env0 true (some [])
          (some cfgW) =
        ⟨⟨MD5.md5Hex [], cfg0⟩, [], false⟩ :=
  ⟨rfl,
    (c5_fingerprint_gating.1 ⟨MD5.md5Hex [], cfg0⟩ env0 [] (some cfgW)).1
      rfl⟩
